import Mathlib

/-!
Verification of the secret-usage resolution engine of
`kubernetes-unused-reporter` (`src/k8s.py`).

The Kubernetes objects are embedded structurally: every field that the
Python kubernetes client may return as `None` is an `Option`, and every
field the client validates as required (`V1PodSpec.containers`,
`V1VolumeMount.name`, and the `spec` of a listed workload object) is
plain.  Python sets of secret names are `Finset (Option String)`:
`_get_used_secrets_in_container` adds `secret_key_ref.name` without a
presence check, so the Python set may contain `None`, modelled as `none`.
The five `list_namespaced_*` calls are modelled by a `Cluster` record
holding the per-namespace listings that the cluster-query collaborator
returns.
-/

namespace K8s

structure SecretVolumeSource where
  secret_name : Option String
deriving DecidableEq

structure Volume where
  secret : Option SecretVolumeSource
deriving DecidableEq

structure SecretKeySelector where
  name : Option String
deriving DecidableEq

structure EnvVarSource where
  secret_key_ref : Option SecretKeySelector
deriving DecidableEq

structure EnvVar where
  value_from : Option EnvVarSource
deriving DecidableEq

structure SecretEnvSource where
  name : Option String
deriving DecidableEq

structure EnvFromSource where
  secret_ref : Option SecretEnvSource
deriving DecidableEq

structure VolumeMount where
  name : String
deriving DecidableEq

structure Container where
  env : Option (List EnvVar)
  env_from : Option (List EnvFromSource)
  volume_mounts : Option (List VolumeMount)
deriving DecidableEq

structure PodSpec where
  volumes : Option (List Volume)
  containers : List Container
  init_containers : Option (List Container)
deriving DecidableEq

structure PodTemplateSpec where
  spec : Option PodSpec
deriving DecidableEq

structure WorkloadSpec where
  template : Option PodTemplateSpec
deriving DecidableEq

structure WorkloadObject where
  spec : WorkloadSpec
deriving DecidableEq

structure Pod where
  spec : Option PodSpec
deriving DecidableEq

/-- Per-namespace listings supplied by the cluster-query collaborator
(the `list_namespaced_*` API calls). -/
structure Cluster where
  deployments : List WorkloadObject
  statefulsets : List WorkloadObject
  daemonsets : List WorkloadObject
  replicasets : List WorkloadObject
  pods : List Pod
  secretNames : List String

/-- Python `str.startswith`. -/
def startswith (s pre : String) : Bool :=
  pre.data.isPrefixOf s.data

/-- `_list_all_secrets` (k8s.py lines 51-67): the names of the listed
secrets, as a set. -/
def list_all_secrets (c : Cluster) : Finset String :=
  c.secretNames.toFinset

/-- `_get_used_secrets_in_container` (k8s.py lines 132-157). -/
def get_used_secrets_in_container (container : Container) : Finset (Option String) :=
  let used_secrets : Finset (Option String) := ∅
  let used_secrets :=
    match container.env with
    | none => used_secrets
    | some envs =>
      envs.foldl (fun acc env =>
        match env.value_from with
        | none => acc
        | some value_from =>
          match value_from.secret_key_ref with
          | none => acc
          | some secret_key_ref => insert secret_key_ref.name acc) used_secrets
  let used_secrets :=
    match container.env_from with
    | none => used_secrets
    | some env_froms =>
      env_froms.foldl (fun acc env_from =>
        match env_from.secret_ref with
        | none => acc
        | some secret_ref =>
          match secret_ref.name with
          | none => acc
          | some n => if n = "" then acc else insert (some n) acc) used_secrets
  let used_secrets :=
    match container.volume_mounts with
    | none => used_secrets
    | some volume_mounts =>
      volume_mounts.foldl (fun acc volume_mount =>
        if some volume_mount.name ∈ acc then insert (some volume_mount.name) acc
        else acc) used_secrets
  used_secrets

/-- `_get_used_secrets_in_container` with the volume-mount loop
(k8s.py lines 153-156) removed; the comparison point for the claim that
the loop is a no-op. -/
def get_used_secrets_in_container_without_mount_loop (container : Container) : Finset (Option String) :=
  let used_secrets : Finset (Option String) := ∅
  let used_secrets :=
    match container.env with
    | none => used_secrets
    | some envs =>
      envs.foldl (fun acc env =>
        match env.value_from with
        | none => acc
        | some value_from =>
          match value_from.secret_key_ref with
          | none => acc
          | some secret_key_ref => insert secret_key_ref.name acc) used_secrets
  let used_secrets :=
    match container.env_from with
    | none => used_secrets
    | some env_froms =>
      env_froms.foldl (fun acc env_from =>
        match env_from.secret_ref with
        | none => acc
        | some secret_ref =>
          match secret_ref.name with
          | none => acc
          | some n => if n = "" then acc else insert (some n) acc) used_secrets
  used_secrets

/-- `_get_used_secrets_in_pod_spec` (k8s.py lines 107-129). -/
def get_used_secrets_in_pod_spec (pod_template : PodSpec) : Finset (Option String) :=
  let used_secrets : Finset (Option String) := ∅
  let used_secrets :=
    match pod_template.volumes with
    | none => used_secrets
    | some volumes =>
      volumes.foldl (fun acc volume =>
        match volume.secret with
        | none => acc
        | some secret =>
          match secret.secret_name with
          | none => acc
          | some secret_name =>
            if secret_name = "" then acc else insert (some secret_name) acc) used_secrets
  let containers := pod_template.containers ++ pod_template.init_containers.getD []
  containers.foldl (fun acc container =>
    acc ∪ get_used_secrets_in_container container) used_secrets

/-- The first loop of `_get_all_pod_specs` (k8s.py lines 98-100):
append the embedded pod spec of each workload object whose template and
inner spec are both present. -/
def collect_workload_specs (ws : List WorkloadObject) (acc : List PodSpec) : List PodSpec :=
  ws.foldl (fun pod_specs deployment =>
    match deployment.spec.template with
    | none => pod_specs
    | some template =>
      match template.spec with
      | none => pod_specs
      | some spec => pod_specs ++ [spec]) acc

/-- The second loop of `_get_all_pod_specs` (k8s.py lines 101-103):
append the spec of each standalone pod whose spec is present. -/
def collect_pod_specs (pods : List Pod) (acc : List PodSpec) : List PodSpec :=
  pods.foldl (fun pod_specs pod =>
    match pod.spec with
    | none => pod_specs
    | some spec => pod_specs ++ [spec]) acc

/-- `_get_all_pod_specs` (k8s.py lines 70-104).  Note: k8s.py line 85
populates `statefulsets_list` with a call to `list_namespaced_deployment`,
so the Deployment listing is read a second time there and the StatefulSet
listing is never consulted. -/
def get_all_pod_specs (c : Cluster) : List PodSpec :=
  let deployments_list := c.deployments
  let statefulsets_list := c.deployments
  let daemonsets_list := c.daemonsets
  let pods_list := c.pods
  let replicasets_list := c.replicasets
  let pod_specs : List PodSpec := []
  let pod_specs :=
    collect_workload_specs
      (deployments_list ++ statefulsets_list ++ daemonsets_list ++ replicasets_list) pod_specs
  let pod_specs := collect_pod_specs pods_list pod_specs
  pod_specs

/-- The aggregation loop of `list_unused_secrets_in_namespace`
(k8s.py lines 21-26): union of the per-template used-secret sets. -/
def aggregate (pod_specs : List PodSpec) : Finset (Option String) :=
  pod_specs.foldl (fun all_used_secrets pod_spec =>
    all_used_secrets ∪ get_used_secrets_in_pod_spec pod_spec) ∅

/-- The resolution tail of `list_unused_secrets_in_namespace`
(k8s.py lines 27-34): set difference, then the reserved-name filter. -/
def resolveUnused (secrets : Finset String) (all_used_secrets : Finset (Option String)) : Finset String :=
  let unused_secrets := secrets.filter (fun secret => some secret ∉ all_used_secrets)
  unused_secrets.filter (fun secret =>
    ¬ (startswith secret ("default-token-")
        ∨ startswith secret ("kubernetes.io/service-account")
        ∨ startswith secret ("sh.helm.release.v1")))

/-- `list_unused_secrets_in_namespace` (k8s.py lines 9-34). -/
def list_unused_secrets_in_namespace (c : Cluster) : Finset String :=
  let secrets := list_all_secrets c
  let pod_specs := get_all_pod_specs c
  let all_used_secrets := aggregate pod_specs
  resolveUnused secrets all_used_secrets

/-- The secret name a volume contributes, per the spec: a secret-volume-source
with a non-empty secret name. -/
def volRef (volume : Volume) : Option (Option String) :=
  volume.secret.bind fun secret =>
    secret.secret_name.bind fun n => if n = "" then none else some (some n)

/-- The value an env var contributes, per the spec: the name field of a
secret key reference, whatever it is. -/
def envRef (e : EnvVar) : Option (Option String) :=
  e.value_from.bind fun value_from =>
    value_from.secret_key_ref.map fun secret_key_ref => secret_key_ref.name

/-- The secret name an envFrom entry contributes, per the spec: a secret
reference carrying a non-empty name. -/
def envFromRef (ef : EnvFromSource) : Option (Option String) :=
  ef.secret_ref.bind fun secret_ref =>
    secret_ref.name.bind fun n => if n = "" then none else some (some n)

/-- Spec-side reading of the volume-secrets step (spec 4.2 step 1). -/
def specVolumeNames (p : PodSpec) : Finset (Option String) :=
  ((p.volumes.getD []).filterMap volRef).toFinset

/-- Spec-side reading of the env-var step (spec 4.2 step 3a). -/
def specEnvNames (c : Container) : Finset (Option String) :=
  ((c.env.getD []).filterMap envRef).toFinset

/-- Spec-side reading of the envFrom step (spec 4.2 step 3b). -/
def specEnvFromNames (c : Container) : Finset (Option String) :=
  ((c.env_from.getD []).filterMap envFromRef).toFinset

/-- Spec-side per-container contribution. -/
def specContainerNames (c : Container) : Finset (Option String) :=
  specEnvNames c ∪ specEnvFromNames c

/-- Spec-side reading of the whole Reference Extractor: the union of the
volume contributions and the per-container contributions over containers
and init containers (spec 4.2 step 4). -/
def specPodSpecNames (p : PodSpec) : Finset (Option String) :=
  specVolumeNames p ∪
    (p.containers ++ p.init_containers.getD []).foldr
      (fun c acc => specContainerNames c ∪ acc) ∅

/-- A pod spec that mounts the secret `app-cred` through a volume. -/
def ssPodSpec : PodSpec :=
  { volumes := some [{ secret := some { secret_name := some ("app-cred") } }]
    containers := []
    init_containers := none }

/-- A well-formed workload object embedding `ssPodSpec`. -/
def ssWorkload : WorkloadObject :=
  { spec := { template := some { spec := some ssPodSpec } } }

/-- A namespace whose StatefulSet listing holds one well-formed StatefulSet
mounting the only secret, with every other listing empty. -/
def ssCluster : Cluster :=
  { deployments := []
    statefulsets := [ssWorkload]
    daemonsets := []
    replicasets := []
    pods := []
    secretNames := [("app-cred")] }

/-- The same namespace with the workload declared as a Deployment. -/
def ssClusterAsDeployment : Cluster :=
  { ssCluster with deployments := [ssWorkload], statefulsets := [] }

/-- A pod spec whose only secret use is an env-var secret key reference to
`env-cred`. -/
def envPodSpec : PodSpec :=
  { volumes := none
    containers :=
      [{ env := some [{ value_from := some { secret_key_ref := some { name := some ("env-cred") } } }]
         env_from := none
         volume_mounts := none }]
    init_containers := none }

/-- A workload object whose template is absent. -/
def nilTemplateWorkload : WorkloadObject :=
  { spec := { template := none } }

/-- A workload object whose template is present but whose inner spec is
absent. -/
def nilSpecTemplateWorkload : WorkloadObject :=
  { spec := { template := some { spec := none } } }

/-- A standalone pod without a spec. -/
def nilSpecPod : Pod :=
  { spec := none }

/-- A standalone pod carrying `ssPodSpec`. -/
def okPod : Pod :=
  { spec := some ssPodSpec }

/-- A container whose envFrom references `mnt` and which also mounts a
volume named `mnt`, exercising the volume-mount loop. -/
def mntContainer : Container :=
  { env := none
    env_from := some [{ secret_ref := some { name := some ("mnt") } }]
    volume_mounts := some [{ name := ("mnt") }] }

/-- Membership in a left fold of unions. -/
theorem mem_foldl_union {α β : Type} [DecidableEq β] (g : α → Finset β)
    (l : List α) (acc : Finset β) (x : β) :
    x ∈ l.foldl (fun s a => s ∪ g a) acc ↔ x ∈ acc ∨ ∃ a ∈ l, x ∈ g a := by
  induction l generalizing acc with
  | nil => simp
  | cons hd tl ih => simp [ih, or_assoc]

/-- Membership in a left fold whose step conditionally inserts the element
described by `f`. -/
theorem mem_foldl_addStep {α β : Type} [DecidableEq β] (f : α → Option β)
    (step : Finset β → α → Finset β)
    (hstep : ∀ s a, step s a = match f a with | some b => insert b s | none => s)
    (l : List α) (acc : Finset β) (x : β) :
    x ∈ l.foldl step acc ↔ x ∈ acc ∨ ∃ a ∈ l, f a = some x := by
  induction l generalizing acc with
  | nil => simp
  | cons hd tl ih =>
    rw [List.foldl_cons, ih, hstep]
    cases h : f hd with
    | none =>
      simp only [List.mem_cons]
      constructor
      · rintro (hx | ⟨a, ha, hfa⟩)
        · exact Or.inl hx
        · exact Or.inr ⟨a, Or.inr ha, hfa⟩
      · rintro (hx | ⟨a, rfl | ha, hfa⟩)
        · exact Or.inl hx
        · rw [h] at hfa; cases hfa
        · exact Or.inr ⟨a, ha, hfa⟩
    | some b =>
      simp only [List.mem_cons, Finset.mem_insert]
      constructor
      · rintro ((rfl | hx) | ⟨a, ha, hfa⟩)
        · exact Or.inr ⟨hd, Or.inl rfl, h⟩
        · exact Or.inl hx
        · exact Or.inr ⟨a, Or.inr ha, hfa⟩
      · rintro (hx | ⟨a, rfl | ha, hfa⟩)
        · exact Or.inl (Or.inr hx)
        · rw [h] at hfa
          exact Or.inl (Or.inl (Option.some.inj hfa).symm)
        · exact Or.inr ⟨a, ha, hfa⟩

/-- The volume-mount loop of `_get_used_secrets_in_container` leaves the
accumulator unchanged: it only re-inserts names that are already members. -/
theorem vm_foldl_id (l : List VolumeMount) (acc : Finset (Option String)) :
    l.foldl (fun s volume_mount =>
      if some volume_mount.name ∈ s then insert (some volume_mount.name) s
      else s) acc = acc := by
  induction l generalizing acc with
  | nil => rfl
  | cons hd tl ih =>
    rw [List.foldl_cons]
    by_cases h : some hd.name ∈ acc
    · rw [if_pos h, Finset.insert_eq_self.mpr h]
      exact ih acc
    · rw [if_neg h]
      exact ih acc

/-- Membership in the env-var fold. -/
theorem mem_env_layer (envs : List EnvVar) (acc : Finset (Option String)) (x : Option String) :
    x ∈ envs.foldl (fun acc env =>
        match env.value_from with
        | none => acc
        | some value_from =>
          match value_from.secret_key_ref with
          | none => acc
          | some secret_key_ref => insert secret_key_ref.name acc) acc
      ↔ x ∈ acc ∨ ∃ e ∈ envs, envRef e = some x := by
  refine mem_foldl_addStep envRef _ ?_ envs acc x
  intro s a
  rcases a with ⟨_ | ⟨_ | r⟩⟩ <;> rfl

/-- Membership in the envFrom fold. -/
theorem mem_env_from_layer (efs : List EnvFromSource) (acc : Finset (Option String))
    (x : Option String) :
    x ∈ efs.foldl (fun acc env_from =>
        match env_from.secret_ref with
        | none => acc
        | some secret_ref =>
          match secret_ref.name with
          | none => acc
          | some n => if n = "" then acc else insert (some n) acc) acc
      ↔ x ∈ acc ∨ ∃ ef ∈ efs, envFromRef ef = some x := by
  refine mem_foldl_addStep envFromRef _ ?_ efs acc x
  intro s a
  rcases a with ⟨_ | ⟨_ | n⟩⟩
  · rfl
  · rfl
  · by_cases h : n = "" <;> simp [envFromRef, h]

/-- Membership in the volume fold. -/
theorem mem_vol_layer (vols : List Volume) (acc : Finset (Option String)) (x : Option String) :
    x ∈ vols.foldl (fun acc volume =>
        match volume.secret with
        | none => acc
        | some secret =>
          match secret.secret_name with
          | none => acc
          | some secret_name =>
            if secret_name = "" then acc else insert (some secret_name) acc) acc
      ↔ x ∈ acc ∨ ∃ v ∈ vols, volRef v = some x := by
  refine mem_foldl_addStep volRef _ ?_ vols acc x
  intro s a
  rcases a with ⟨_ | ⟨_ | n⟩⟩
  · rfl
  · rfl
  · by_cases h : n = "" <;> simp [volRef, h]

/-- Characterisation of the per-container used-secret set. -/
theorem mem_get_used_secrets_in_container (c : Container) (x : Option String) :
    x ∈ get_used_secrets_in_container c ↔
      (∃ e ∈ c.env.getD [], envRef e = some x)
      ∨ (∃ ef ∈ c.env_from.getD [], envFromRef ef = some x) := by
  rcases c with ⟨env?, envFrom?, vm?⟩
  unfold get_used_secrets_in_container
  cases vm? <;> cases envFrom? <;> cases env? <;>
    simp [vm_foldl_id, mem_env_layer, mem_env_from_layer, or_assoc]

/-- Characterisation of the per-template used-secret set. -/
theorem mem_get_used_secrets_in_pod_spec (p : PodSpec) (x : Option String) :
    x ∈ get_used_secrets_in_pod_spec p ↔
      (∃ v ∈ p.volumes.getD [], volRef v = some x)
      ∨ ∃ c ∈ p.containers ++ p.init_containers.getD [],
          x ∈ get_used_secrets_in_container c := by
  rcases p with ⟨vols?, cs, ics?⟩
  unfold get_used_secrets_in_pod_spec
  cases vols? <;> cases ics? <;>
    simp [mem_foldl_union, mem_vol_layer, or_assoc, or_and_right, exists_or]

/-- Characterisation of the aggregated used-secret set. -/
theorem mem_aggregate (ts : List PodSpec) (x : Option String) :
    x ∈ aggregate ts ↔ ∃ t ∈ ts, x ∈ get_used_secrets_in_pod_spec t := by
  unfold aggregate
  simp [mem_foldl_union]

/-- Characterisation of the resolver output. -/
theorem mem_resolveUnused (secrets : Finset String) (used : Finset (Option String)) (s : String) :
    s ∈ resolveUnused secrets used ↔
      s ∈ secrets ∧ some s ∉ used ∧
        ¬ (startswith s ("default-token-")
            ∨ startswith s ("kubernetes.io/service-account")
            ∨ startswith s ("sh.helm.release.v1")) := by
  unfold resolveUnused
  simp only [Finset.mem_filter, and_assoc]

/-- Membership in the spec-side right fold of per-container unions. -/
theorem mem_spec_foldr (cs : List Container) (x : Option String) :
    x ∈ cs.foldr (fun c acc => specContainerNames c ∪ acc) ∅
      ↔ ∃ c ∈ cs, x ∈ specContainerNames c := by
  induction cs with
  | nil => simp
  | cons hd tl ih => simp [ih]

/-- The workload loop appends exactly the inner specs of the objects whose
template and template spec are both present, in order. -/
theorem collect_workload_specs_eq (ws : List WorkloadObject) (acc : List PodSpec) :
    collect_workload_specs ws acc
      = acc ++ ws.filterMap (fun w => w.spec.template.bind fun t => t.spec) := by
  induction ws generalizing acc with
  | nil => simp [collect_workload_specs]
  | cons hd tl ih =>
    unfold collect_workload_specs at ih ⊢
    rw [List.foldl_cons]
    rcases hd with ⟨⟨_ | ⟨_ | s⟩⟩⟩ <;> simp [ih]

/-- The pod loop appends exactly the specs of the pods whose spec is
present, in order. -/
theorem collect_pod_specs_eq (pods : List Pod) (acc : List PodSpec) :
    collect_pod_specs pods acc = acc ++ pods.filterMap (fun p => p.spec) := by
  induction pods generalizing acc with
  | nil => simp [collect_pod_specs]
  | cons hd tl ih =>
    unfold collect_pod_specs at ih ⊢
    rw [List.foldl_cons]
    rcases hd with ⟨_ | s⟩ <;> simp [ih]

/-- C1: any secret name starting with one of the three reserved prefixes
`default-token-`, `kubernetes.io/service-account`, `sh.helm.release.v1`
never appears in the output of the unused-secret resolver, for every set of
declared secret names and every used-secret set. -/
theorem c1_reserved_names_never_output (secrets : Finset String)
    (used : Finset (Option String)) (name : String)
    (h : startswith name ("default-token-")
        ∨ startswith name ("kubernetes.io/service-account")
        ∨ startswith name ("sh.helm.release.v1")) :
    name ∉ resolveUnused secrets used := by
  intro hmem
  exact ((mem_resolveUnused secrets used name).mp hmem).2.2 h

/-- Witness for C1 at the name `default-token-abc123`. -/
theorem c1_witness :
    (startswith ("default-token-abc123") ("default-token-")
      ∨ startswith ("default-token-abc123") ("kubernetes.io/service-account")
      ∨ startswith ("default-token-abc123") ("sh.helm.release.v1"))
    ∧ ("default-token-abc123") ∉
        resolveUnused {("default-token-abc123"), ("db-pass")} ∅ :=
  ⟨Or.inl (by decide), c1_reserved_names_never_output _ _ _ (Or.inl (by decide))⟩

/-- C2: the resolver output is contained in the declared secret names and
is disjoint from the used-secret set. -/
theorem c2_output_subset_and_disjoint (secrets : Finset String)
    (used : Finset (Option String)) :
    resolveUnused secrets used ⊆ secrets
    ∧ ∀ s ∈ resolveUnused secrets used, some s ∉ used := by
  constructor
  · intro s hs
    exact ((mem_resolveUnused secrets used s).mp hs).1
  · intro s hs
    exact ((mem_resolveUnused secrets used s).mp hs).2.1

/-- Witness for C2 on a concrete namespace. -/
theorem c2_witness :
    resolveUnused {("db-pass"), ("api-key")} {some ("api-key")} ⊆ {("db-pass"), ("api-key")}
    ∧ some ("db-pass") ∉ ({some ("api-key")} : Finset (Option String)) :=
  ⟨(c2_output_subset_and_disjoint {("db-pass"), ("api-key")} {some ("api-key")}).1,
    (c2_output_subset_and_disjoint {("db-pass"), ("api-key")} {some ("api-key")}).2
      ("db-pass") (by decide)⟩

/-- C3 (bug evidence): `ssCluster` has one well-formed StatefulSet whose
template mounts `app-cred`, the only secret, yet the collector gathers no
template at all (k8s.py line 85 reads the Deployment listing for the
StatefulSet listing), so `app-cred` is reported unused; declaring the very
same workload as a Deployment makes the report empty. -/
theorem c3_statefulset_listing_ignored :
    get_all_pod_specs ssCluster = []
    ∧ list_unused_secrets_in_namespace ssCluster = {("app-cred")}
    ∧ list_unused_secrets_in_namespace ssClusterAsDeployment = ∅
    ∧ ssWorkload.spec.template = some { spec := some ssPodSpec } := by
  refine ⟨rfl, by decide, by decide, rfl⟩

/-- C4: the Reference Extractor is a total function into sets of secret
names, and every absent or empty substructure contributes nothing: a pod
template with absent-or-empty volumes, no containers and absent-or-empty
init containers yields the empty set, as does a container with
absent-or-empty env, envFrom and volume mounts. -/
theorem c4_extractor_total_absent_fields_empty (p : PodSpec) (c : Container)
    (hv : p.volumes = none ∨ p.volumes = some [])
    (hc : p.containers = [])
    (hi : p.init_containers = none ∨ p.init_containers = some [])
    (he : c.env = none ∨ c.env = some [])
    (hf : c.env_from = none ∨ c.env_from = some [])
    (hm : c.volume_mounts = none ∨ c.volume_mounts = some []) :
    get_used_secrets_in_pod_spec p = ∅ ∧ get_used_secrets_in_container c = ∅ := by
  rcases hv with hv | hv <;> rcases hi with hi | hi <;> rcases he with he | he <;>
    rcases hf with hf | hf <;> rcases hm with hm | hm <;>
    constructor <;>
    simp [get_used_secrets_in_pod_spec, get_used_secrets_in_container, hv, hc, hi, he, hf, hm]

/-- Witness for C4 at a template and a container with all fields absent. -/
theorem c4_witness :
    get_used_secrets_in_pod_spec
        { volumes := none, containers := [], init_containers := none } = ∅
    ∧ get_used_secrets_in_container
        { env := none, env_from := none, volume_mounts := none } = ∅ :=
  c4_extractor_total_absent_fields_empty _ _
    (Or.inl rfl) rfl (Or.inl rfl) (Or.inl rfl) (Or.inl rfl) (Or.inl rfl)

/-- C5: for every pod template, the Reference Extractor returns exactly the
union of the non-empty volume secret names and, over containers and init
containers, the env-var secret-key-reference names and the non-empty
envFrom secret-reference names. -/
theorem c5_extractor_is_spec_union (p : PodSpec) :
    get_used_secrets_in_pod_spec p = specPodSpecNames p := by
  ext x
  rw [mem_get_used_secrets_in_pod_spec]
  simp only [specPodSpecNames, Finset.mem_union, mem_spec_foldr]
  simp only [specVolumeNames, specContainerNames, specEnvNames, specEnvFromNames,
    Finset.mem_union, List.mem_toFinset, List.mem_filterMap,
    mem_get_used_secrets_in_container]

/-- Witness for C5 at a concrete template. -/
theorem c5_witness :
    get_used_secrets_in_pod_spec envPodSpec = specPodSpecNames envPodSpec :=
  c5_extractor_is_spec_union envPodSpec

/-- C6: the collection loops append a workload object's embedded pod spec
exactly when the template and its inner spec are both present, and a
standalone pod's spec exactly when it is present; everything else is
skipped silently. -/
theorem c6_collect_iff_template_and_spec_present (ws : List WorkloadObject)
    (pods : List Pod) :
    collect_pod_specs pods (collect_workload_specs ws [])
      = ws.filterMap (fun w => w.spec.template.bind fun t => t.spec)
        ++ pods.filterMap (fun p => p.spec) := by
  rw [collect_pod_specs_eq, collect_workload_specs_eq]
  simp

/-- Witness for C6 on listings mixing well-formed and malformed objects. -/
theorem c6_witness :
    collect_pod_specs [nilSpecPod, okPod]
        (collect_workload_specs [ssWorkload, nilTemplateWorkload, nilSpecTemplateWorkload] [])
      = [ssPodSpec, ssPodSpec] := by
  rw [c6_collect_iff_template_and_spec_present]
  decide

/-- C7: the Usage Aggregator is invariant under permutation and duplication
of its input template sequence. -/
theorem c7_aggregate_perm_and_dup_invariant (ts ts' : List PodSpec) (h : ts.Perm ts') :
    aggregate ts = aggregate ts' ∧ aggregate (ts ++ ts) = aggregate ts := by
  constructor
  · ext x
    rw [mem_aggregate, mem_aggregate]
    constructor
    · rintro ⟨t, ht, hx⟩
      exact ⟨t, h.mem_iff.mp ht, hx⟩
    · rintro ⟨t, ht, hx⟩
      exact ⟨t, h.mem_iff.mpr ht, hx⟩
  · ext x
    rw [mem_aggregate, mem_aggregate]
    simp [List.mem_append, or_and_right, exists_or]

/-- Witness for C7 at a two-template sequence and its swap. -/
theorem c7_witness :
    aggregate [ssPodSpec, envPodSpec] = aggregate [envPodSpec, ssPodSpec]
    ∧ aggregate ([ssPodSpec, envPodSpec] ++ [ssPodSpec, envPodSpec])
        = aggregate [ssPodSpec, envPodSpec] :=
  c7_aggregate_perm_and_dup_invariant _ _ (List.Perm.swap envPodSpec ssPodSpec [])

/-- C8: the volume-mount loop of `_get_used_secrets_in_container` is a
no-op: the function equals its variant with that loop removed. -/
theorem c8_mount_loop_is_noop (c : Container) :
    get_used_secrets_in_container c
      = get_used_secrets_in_container_without_mount_loop c := by
  unfold get_used_secrets_in_container get_used_secrets_in_container_without_mount_loop
  cases hm : c.volume_mounts with
  | none => rfl
  | some vms => exact vm_foldl_id vms _

/-- Witness for C8 at a container whose volume-mount name collides with an
already-collected secret name. -/
theorem c8_witness :
    get_used_secrets_in_container mntContainer
      = get_used_secrets_in_container_without_mount_loop mntContainer :=
  c8_mount_loop_is_noop mntContainer

/-- C9: aggregation is monotone in the template sequence and the resolver
is antitone in the used set: scanning one more template can only grow the
used set and shrink the unused output. -/
theorem c9_more_templates_shrink_output (ts : List PodSpec) (t : PodSpec)
    (secrets : Finset String) :
    aggregate ts ⊆ aggregate (ts ++ [t])
    ∧ resolveUnused secrets (aggregate (ts ++ [t]))
        ⊆ resolveUnused secrets (aggregate ts) := by
  have hsub : aggregate ts ⊆ aggregate (ts ++ [t]) := by
    intro x hx
    rw [mem_aggregate] at hx ⊢
    obtain ⟨u, hu, hxu⟩ := hx
    exact ⟨u, List.mem_append_left _ hu, hxu⟩
  refine ⟨hsub, ?_⟩
  intro s hs
  rw [mem_resolveUnused] at hs ⊢
  exact ⟨hs.1, fun hmem => hs.2.1 (hsub hmem), hs.2.2⟩

/-- Witness for C9 at a concrete sequence, extra template and secret set. -/
theorem c9_witness :
    aggregate [ssPodSpec] ⊆ aggregate ([ssPodSpec] ++ [envPodSpec])
    ∧ resolveUnused {("app-cred"), ("env-cred")} (aggregate ([ssPodSpec] ++ [envPodSpec]))
        ⊆ resolveUnused {("app-cred"), ("env-cred")} (aggregate [ssPodSpec]) :=
  c9_more_templates_shrink_output _ _ _

/-- C10: the env-var path adds the secret-key-reference name with no
presence or non-emptiness check — even an absent (`none`) or empty name is
added — while the envFrom path and the volume-secret path both drop absent
and empty names. -/
theorem c10_env_path_unchecked_name (n : Option String) :
    n ∈ get_used_secrets_in_container
        { env := some [{ value_from := some { secret_key_ref := some { name := n } } }]
          env_from := none
          volume_mounts := none }
    ∧ get_used_secrets_in_container
        { env := none
          env_from := some [{ secret_ref := some { name := none } },
                            { secret_ref := some { name := some ("") } }]
          volume_mounts := none } = ∅
    ∧ get_used_secrets_in_pod_spec
        { volumes := some [{ secret := some { secret_name := none } },
                           { secret := some { secret_name := some ("") } }]
          containers := []
          init_containers := none } = ∅ := by
  refine ⟨?_, by decide, by decide⟩
  simp [get_used_secrets_in_container]

/-- Witness for C10 at the absent name `none`. -/
theorem c10_witness :
    none ∈ get_used_secrets_in_container
        { env := some [{ value_from := some { secret_key_ref := some { name := none } } }]
          env_from := none
          volume_mounts := none }
    ∧ get_used_secrets_in_container
        { env := none
          env_from := some [{ secret_ref := some { name := none } },
                            { secret_ref := some { name := some ("") } }]
          volume_mounts := none } = ∅
    ∧ get_used_secrets_in_pod_spec
        { volumes := some [{ secret := some { secret_name := none } },
                           { secret := some { secret_name := some ("") } }]
          containers := []
          init_containers := none } = ∅ :=
  c10_env_path_unchecked_name none

end K8s
